import Mathlib

/-!
Shallow embedding of the syzkaller executor runtime (`executor/common.h`) and
proofs of the specification claims about it.

The embedding models each C function of the file as a Lean function.  OS
behaviour that the code merely reacts to (errno values returned by unlink,
rmdir, umount2, mount, the success of open("/dev/fuse"), the times at which a
forked worker terminates) is passed in as explicit oracle arguments, so every
definition is executable on concrete inputs.  Upward-counting C retry loops
bounded by a test on the counter are written as structural recursion on the
count of remaining permitted retries, with the original counter carried along
unchanged (the wrapper definitions restore the exact C indexing).
-/

/-! ## Exit/status protocol (common.h lines 34-36) -/

/-- Exit status used by fail(): logical harness error (kFailStatus = 67 in the source). -/
def kFailStatus : Nat := 67

/-- Exit status used by error(): kernel/target error (kErrorStatus = 68 in the source). -/
def kErrorStatus : Nat := 68

/-- Exit status used by exitf(): transient error, caller should retry (kRetryStatus = 69 in the source). -/
def kRetryStatus : Nat := 69

/-- Linux signal number of SIGSEGV (from the platform signal headers);
install_segv_handler registers segv_handler for it. -/
def SIGSEGV : Nat := 11

/-- Linux signal number of SIGBUS (from the platform signal headers);
install_segv_handler registers segv_handler for it. -/
def SIGBUS : Nat := 7

/-! ## Guarded memory access: segv_handler and NONFAILING (common.h lines 91-118) -/

/-- Outcome of segv_handler for one delivered fault signal: either a longjmp back
into the active NONFAILING guard, or process termination via exit(sig). -/
inductive SegvOutcome where
  | longjmpResume
  | exited (status : Nat)
deriving DecidableEq

/-- segv_handler from common.h: if the thread-local skip_segv counter is nonzero
it longjmps to segv_env, otherwise it exits the process with the raw signal
number as the exit status. -/
def segv_handler (skip_segv sig : Nat) : SegvOutcome :=
  if skip_segv ≠ 0 then SegvOutcome.longjmpResume else SegvOutcome.exited sig

/-- One operation of a guarded block: either an ordinary effect on the thread's
state, or an access that raises a memory fault (SIGSEGV/SIGBUS). -/
inductive GuardOp (σ : Type) where
  | eff (f : σ → σ)
  | faulty

/-- Run the operations of a block in order, stopping at the first faulting
operation.  Returns the state reached and whether a fault was raised. -/
def runBlock {σ : Type} : List (GuardOp σ) → σ → σ × Bool
  | [], s => (s, false)
  | GuardOp.eff f :: rest, s => runBlock rest (f s)
  | GuardOp.faulty :: _, s => (s, true)

/-- Observable result of one execution of the NONFAILING macro. -/
structure GuardResult (σ : Type) where
  /-- the process did not die during the guarded block -/
  alive : Bool
  /-- how many times control arrived at the point just after the guard -/
  resumeCount : Nat
  /-- value of the thread's skip_segv counter after the guard -/
  skip_segv : Nat
  /-- thread state after the guard -/
  state : σ
  /-- the block ran to completion (no fault) -/
  blockCompleted : Bool

/-- The NONFAILING macro from common.h: atomically increment skip_segv, _setjmp,
run the block (a fault inside it makes segv_handler longjmp back, abandoning the
rest of the block), then atomically decrement skip_segv.  The armed check
mirrors segv_handler: a fault with skip_segv = 0 kills the process. -/
def NONFAILING {σ : Type} (blk : List (GuardOp σ)) (skip0 : Nat) (s0 : σ) : GuardResult σ :=
  let armed := skip0 + 1
  let r := runBlock blk s0
  if r.2 then
    if armed ≠ 0 then ⟨true, 1, armed - 1, r.1, false⟩
    else ⟨false, 0, armed, r.1, false⟩
  else ⟨true, 1, armed - 1, r.1, true⟩

/-! ## syz_open_dev (common.h lines 120-140) -/

/-- Arguments of an open() call issued by a pseudo-syscall handler. -/
structure OpenCall where
  path : List Char
  flags : Nat
  mode : Nat
deriving DecidableEq

/-- Numeric value of O_RDWR from the platform fcntl headers. -/
def O_RDWR : Nat := 2

/-- Decimal rendering of a natural number, as produced by printf %d for
non-negative values. -/
def decimalDigits (n : Nat) : List Char := Nat.toDigits 10 n

/-- The reserved-marker branch of syz_open_dev (a0 equal to 0xc = 12 or 0xb = 11):
sprintf(buf, "/dev/%s/%d:%d", a0 == 0xc ? "char" : "block", (uint8_t)a1, (uint8_t)a2)
followed by open(buf, O_RDWR, 0).  The uint8_t casts are the low 8 bits. -/
def syz_open_dev_marker (a0 a1 a2 : Nat) : OpenCall :=
  ⟨"/dev/".toList ++ (if a0 = 12 then "char".toList else "block".toList) ++
      '/' :: (decimalDigits (a1 % 256) ++ ':' :: decimalDigits (a2 % 256)),
    O_RDWR, 0⟩

/-- The strchr/replace loop of syz_open_dev: each occurrence of the placeholder,
left to right, is overwritten with the character digit of a1 mod 10, and a1 is
divided by 10. -/
def substHashes : List Char → Nat → List Char
  | [], _ => []
  | c :: rest, v =>
    if c = '#' then Char.ofNat ('0'.toNat + v % 10) :: substHashes rest (v / 10)
    else c :: substHashes rest v

/-- The template branch of syz_open_dev: strncpy of the template into a
1024-byte buffer with a forced NUL at index 1023 (so the effective template is
the first 1023 characters), followed by the placeholder substitution loop. -/
def syz_open_dev_template_path (tmpl : List Char) (a1 : Nat) : List Char :=
  substHashes (tmpl.take 1023) a1

/-- The template branch of syz_open_dev ends with open(buf, a2, 0): flags come
from the third argument, mode is 0. -/
def syz_open_dev_template (tmpl : List Char) (a1 a2 : Nat) : OpenCall :=
  ⟨syz_open_dev_template_path tmpl a1, a2, 0⟩

/-- Substitution as worded by the spec: the i-th placeholder occurrence (counted
from 0, left to right) is replaced by the decimal digit (v / 10 ^ i) % 10, i.e.
successive base-10 digits of v, least-significant first, one digit per
placeholder. -/
def specHashSubst : List Char → Nat → Nat → List Char
  | [], _, _ => []
  | c :: rest, v, i =>
    if c = '#' then Char.ofNat ('0'.toNat + v / 10 ^ i % 10) :: specHashSubst rest v (i + 1)
    else c :: specHashSubst rest v i

/-! ## execute_syscall (common.h lines 211-227) -/

/-- Modelled from the spec: the numeric identifier of the syz_test
pseudo-operation.  The five reserved identifier macros are defined outside this
file; the C switch in execute_syscall only requires the five values to be
pairwise distinct (duplicate case labels would not compile), which the chosen
numerals satisfy. -/
def NR_syz_test : Nat := 1000001

/-- Modelled from the spec: the numeric identifier of the open-device
pseudo-operation (see NR_syz_test for the modelling of these constants). -/
def NR_syz_open_dev : Nat := 1000002

/-- Modelled from the spec: the numeric identifier of the open-pty
pseudo-operation (see NR_syz_test for the modelling of these constants). -/
def NR_syz_open_pts : Nat := 1000003

/-- Modelled from the spec: the numeric identifier of the fuse-mount
pseudo-operation (see NR_syz_test for the modelling of these constants). -/
def NR_syz_fuse_mount : Nat := 1000004

/-- Modelled from the spec: the numeric identifier of the fuseblk-mount
pseudo-operation (see NR_syz_test for the modelling of these constants). -/
def NR_syz_fuseblk_mount : Nat := 1000005

/-- What execute_syscall does with a request: which handler it selects and
which of the nine arguments it forwards to it. -/
inductive DispatchAction where
  | hostCall (nr a0 a1 a2 a3 a4 a5 : Nat)
  | testStub
  | openDev (a0 a1 a2 : Nat)
  | openPts (a0 a1 : Nat)
  | fuseMount (a0 a1 a2 a3 a4 a5 : Nat)
  | fuseblkMount (a0 a1 a2 a3 a4 a5 a6 a7 : Nat)
deriving DecidableEq

/-- execute_syscall from common.h: the switch on the numeric identifier.  The
default branch is syscall(nr, a0, a1, a2, a3, a4, a5); the five reserved
identifiers select the synthetic handlers (syz_test just returns 0). -/
def execute_syscall (nr a0 a1 a2 a3 a4 a5 a6 a7 a8 : Nat) : DispatchAction :=
  if nr = NR_syz_test then DispatchAction.testStub
  else if nr = NR_syz_open_dev then DispatchAction.openDev a0 a1 a2
  else if nr = NR_syz_open_pts then DispatchAction.openPts a0 a1
  else if nr = NR_syz_fuse_mount then DispatchAction.fuseMount a0 a1 a2 a3 a4 a5
  else if nr = NR_syz_fuseblk_mount then DispatchAction.fuseblkMount a0 a1 a2 a3 a4 a5 a6 a7
  else DispatchAction.hostCall nr a0 a1 a2 a3 a4 a5

/-- Result of a dispatch that reached the host's native call interface: the
host's return value for exactly the forwarded identifier and six arguments
(none for the intercepted identifiers). -/
def hostResult (host : Nat → Nat → Nat → Nat → Nat → Nat → Nat → Int) :
    DispatchAction → Option Int
  | DispatchAction.hostCall nr a0 a1 a2 a3 a4 a5 => some (host nr a0 a1 a2 a3 a4 a5)
  | _ => none

/-! ## do_sandbox_setuid (common.h lines 287-307) -/

/-- Identity-changing calls issued by the setuid sandbox child, with the
identity arguments passed to the setresgid/setresuid syscalls. -/
inductive SetuidStep where
  | setgroupsCall
  | setresgidCall (r e s : Nat)
  | setresuidCall (r e s : Nat)
deriving DecidableEq

/-- Whether the sandboxed child went on to the worker loop() or terminated. -/
inductive SandboxOutcome where
  | enteredLoop
  | exited (status : Nat)
deriving DecidableEq

/-- The unprivileged identity used by do_sandbox_setuid (const int nobody = 65534). -/
def nobody : Nat := 65534

/-- The child branch of do_sandbox_setuid after sandbox_common(): setgroups(0,
NULL), then setresgid and setresuid to nobody; each failing call makes the
process fail() with kFailStatus.  The three oracle booleans say whether the
respective call succeeds; the returned list records the calls issued. -/
def do_sandbox_setuid_child (setgroupsOk setresgidOk setresuidOk : Bool) :
    SandboxOutcome × List SetuidStep :=
  if setgroupsOk = false then (SandboxOutcome.exited kFailStatus, [SetuidStep.setgroupsCall])
  else if setresgidOk = false then
    (SandboxOutcome.exited kFailStatus,
      [SetuidStep.setgroupsCall, SetuidStep.setresgidCall nobody nobody nobody])
  else if setresuidOk = false then
    (SandboxOutcome.exited kFailStatus,
      [SetuidStep.setgroupsCall, SetuidStep.setresgidCall nobody nobody nobody,
        SetuidStep.setresuidCall nobody nobody nobody])
  else
    (SandboxOutcome.enteredLoop,
      [SetuidStep.setgroupsCall, SetuidStep.setresgidCall nobody nobody nobody,
        SetuidStep.setresuidCall nobody nobody nobody])

/-! ## syz_fuse_mount and syz_fuseblk_mount (common.h lines 153-209) -/

/-- Value of a 64-bit unsigned quantity after a C cast to signed long (64-bit),
as printed by the %ld conversions in the mount-option sprintf calls. -/
def toSigned64 (n : Nat) : Int :=
  if n % 2 ^ 64 < 2 ^ 63 then (n % 2 ^ 64 : Int) else (n % 2 ^ 64 : Int) - 2 ^ 64

/-- Decimal rendering of a signed integer, as produced by printf %d / %ld. -/
def signedDecimal (n : Int) : List Char :=
  if n < 0 then '-' :: Nat.toDigits 10 n.natAbs else Nat.toDigits 10 n.toNat

/-- Octal rendering of a natural number, as produced by printf %o. -/
def octalDigits (n : Nat) : List Char := Nat.toDigits 8 n

/-- The rootmode value printed by the fuse handlers: (unsigned)mode & ~3u,
i.e. the mode truncated to 32 bits with its two low bits cleared (rounding
down to a multiple of 4). -/
def fuse_rootmode (mode : Nat) : Nat := mode % 4294967296 / 4 * 4

/-- The common prefix of the fuse mount-option strings:
sprintf(buf, "fd=%d,user_id=%ld,group_id=%ld,rootmode=0%o", fd, (long)uid,
(long)gid, (unsigned)mode & ~3u). -/
def fuseOptsBase (fd : Int) (uid gid mode : Nat) : List Char :=
  "fd=".toList ++ signedDecimal fd ++
  ",user_id=".toList ++ signedDecimal (toSigned64 uid) ++
  ",group_id=".toList ++ signedDecimal (toSigned64 gid) ++
  ",rootmode=0".toList ++ octalDigits (fuse_rootmode mode)

/-- The full option string built by syz_fuse_mount: the base, then
",max_read=%ld" when maxread is nonzero, then ",default_permissions" when mode
bit 0 is set, then ",allow_other" when mode bit 1 is set. -/
def fuseOpts (fd : Int) (uid gid mode maxread : Nat) : List Char :=
  fuseOptsBase fd uid gid mode ++
  (if maxread ≠ 0 then ",max_read=".toList ++ signedDecimal (toSigned64 maxread) else []) ++
  (if mode.testBit 0 then ",default_permissions".toList else []) ++
  (if mode.testBit 1 then ",allow_other".toList else [])

/-- Arguments of a SYS_mount call issued by a fuse handler. -/
structure MountCall where
  source : List Char
  target : List Char
  fstype : List Char
  flags : Nat
  data : List Char
deriving DecidableEq

/-- Observable behaviour of one syz_fuse_mount call: the returned value and the
mount call it attempted, if any. -/
structure FuseMountResult where
  ret : Int
  mount : Option MountCall
deriving DecidableEq

/-- syz_fuse_mount from common.h.  openFd is the result of open("/dev/fuse",
O_RDWR) (-1 on failure); mountSucceeds is the result of the SYS_mount call,
which the source deliberately ignores.  On open failure the fd (-1) is
returned at once; otherwise the option string is built and SYS_mount("",
target, "fuse", flags, buf) is attempted, and the fd is returned either way. -/
def syz_fuse_mount (openFd : Int) (mountSucceeds : Bool) (target : List Char)
    (mode uid gid maxread flags : Nat) : FuseMountResult :=
  if openFd = -1 then ⟨openFd, none⟩
  else ⟨openFd, some ⟨[], target, "fuse".toList, flags, fuseOpts openFd uid gid mode maxread⟩⟩

/-- The full option string built by syz_fuseblk_mount: as fuseOpts but with an
additional ",blksize=%ld" option when blksize is nonzero, inserted before the
two mode-bit options. -/
def fuseblkOpts (fd : Int) (uid gid mode maxread blksize : Nat) : List Char :=
  fuseOptsBase fd uid gid mode ++
  (if maxread ≠ 0 then ",max_read=".toList ++ signedDecimal (toSigned64 maxread) else []) ++
  (if blksize ≠ 0 then ",blksize=".toList ++ signedDecimal (toSigned64 blksize) else []) ++
  (if mode.testBit 0 then ",default_permissions".toList else []) ++
  (if mode.testBit 1 then ",allow_other".toList else [])

/-- Observable behaviour of one syz_fuseblk_mount call: the returned value, the
mknodat call it attempted (path and the major/minor device numbers of the
created block node), and the mount call it attempted, if any. -/
structure FuseblkResult where
  ret : Int
  mknodCall : Option (List Char × Nat × Nat)
  mount : Option MountCall
deriving DecidableEq

/-- syz_fuseblk_mount from common.h.  openFd is the result of open("/dev/fuse",
O_RDWR); mknodOk says whether the SYS_mknodat call creating the block device
node at blkdev succeeds (the node always uses makedev(7, 199)); mountSucceeds
is the ignored result of SYS_mount.  On open failure -1 is returned; on mknodat
failure the fd is returned without attempting the mount; otherwise
SYS_mount(blkdev, target, "fuseblk", flags, buf) is attempted and the fd is
returned either way. -/
def syz_fuseblk_mount (openFd : Int) (mknodOk mountSucceeds : Bool)
    (target blkdev : List Char) (mode uid gid maxread blksize flags : Nat) : FuseblkResult :=
  if openFd = -1 then ⟨openFd, none, none⟩
  else if mknodOk = false then ⟨openFd, some (blkdev, 7, 199), none⟩
  else ⟨openFd, some (blkdev, 7, 199),
    some ⟨blkdev, target, "fuseblk".toList, flags, fuseblkOpts openFd uid gid mode maxread blksize⟩⟩

/-! ## remove_dir (common.h lines 402-475)

The reclaimer reacts to errno values of unlink, umount2, rmdir and to opendir
failures; those environment responses are passed in as oracles.  The model
covers a directory whose entries are non-directory files (the per-entry
unlink/umount loop, the rmdir loop, and the outer re-listing loop of the
source; the recursion of remove_dir into subdirectories runs this same
machinery on each subdirectory).  Every failure exit in remove_dir is a call
to exitf, which exits with kRetryStatus. -/

/-- Environment response to one unlink attempt on an entry. -/
inductive UnlinkResult where
  | ok
  | erofs
  | ebusy
  | other
deriving DecidableEq

/-- Filesystem calls performed by the per-entry loop, tagged with the
attempt index i of the C loop. -/
inductive FsAction where
  | unlinkCall (i : Nat)
  | umountDetach (i : Nat)
deriving DecidableEq

/-- How the per-entry unlink loop ends. -/
inductive EntryOutcome where
  | removed
  | skippedReadOnly
  | exited (status : Nat)
deriving DecidableEq

/-- The per-entry unlink loop of remove_dir, with left = number of retries the
bound i > 100 still permits (the wrapper unlinkLoop instantiates left = 101 - i,
so left = 0 exactly when i > 100).  Per attempt i: unlink; on success stop; on
EROFS skip the entry; on EBUSY with the budget exhausted, or any other errno,
exitf; otherwise umount2(path, MNT_DETACH) (exitf if it fails) and retry. -/
def unlinkLoopGo (res : Nat → UnlinkResult) (um : Nat → Bool) :
    Nat → Nat → EntryOutcome × List FsAction
  | left, i =>
    match res i with
    | UnlinkResult.ok => (EntryOutcome.removed, [FsAction.unlinkCall i])
    | UnlinkResult.erofs => (EntryOutcome.skippedReadOnly, [FsAction.unlinkCall i])
    | UnlinkResult.other => (EntryOutcome.exited kRetryStatus, [FsAction.unlinkCall i])
    | UnlinkResult.ebusy =>
      match left with
      | 0 => (EntryOutcome.exited kRetryStatus, [FsAction.unlinkCall i])
      | left' + 1 =>
        if um i then
          ((unlinkLoopGo res um left' (i + 1)).1,
            FsAction.unlinkCall i :: FsAction.umountDetach i ::
              (unlinkLoopGo res um left' (i + 1)).2)
        else (EntryOutcome.exited kRetryStatus, [FsAction.unlinkCall i, FsAction.umountDetach i])

/-- The per-entry loop of remove_dir starting at attempt i (the C loop starts
at i = 0); res i is the errno outcome of the i-th unlink attempt and um i the
success of the umount2 after it. -/
def unlinkLoop (res : Nat → UnlinkResult) (um : Nat → Bool) (i : Nat) :
    EntryOutcome × List FsAction :=
  unlinkLoopGo res um (101 - i) i

/-- Environment response to one rmdir attempt. -/
inductive RmdirResult where
  | ok
  | erofs
  | ebusy
  | enotempty
  | other
deriving DecidableEq

/-- How the rmdir loop of remove_dir ends; dirNotEmpty is the ENOTEMPTY case
within budget, which sends the caller back to the listing pass. -/
inductive RmdirOutcome where
  | removed
  | skippedReadOnly
  | dirNotEmpty
  | exited (status : Nat)
deriving DecidableEq

/-- The rmdir loop of remove_dir, with left = number of attempts the bound
i < 100 still permits (the wrapper rmdirLoop instantiates left = 100 - i).
Per attempt i: rmdir; on success stop; within budget, EROFS stops as
already-clean, EBUSY umounts the directory itself (exitf on umount failure)
and retries, ENOTEMPTY reports dirNotEmpty to the outer loop; everything else,
and any errno once the budget is exhausted, exitf. -/
def rmdirLoopGo (res : Nat → RmdirResult) (um : Nat → Bool) : Nat → Nat → RmdirOutcome
  | left, i =>
    match res i with
    | RmdirResult.ok => RmdirOutcome.removed
    | RmdirResult.other => RmdirOutcome.exited kRetryStatus
    | RmdirResult.erofs =>
      match left with
      | 0 => RmdirOutcome.exited kRetryStatus
      | _ + 1 => RmdirOutcome.skippedReadOnly
    | RmdirResult.enotempty =>
      match left with
      | 0 => RmdirOutcome.exited kRetryStatus
      | _ + 1 => RmdirOutcome.dirNotEmpty
    | RmdirResult.ebusy =>
      match left with
      | 0 => RmdirOutcome.exited kRetryStatus
      | left' + 1 =>
        if um i then rmdirLoopGo res um left' (i + 1)
        else RmdirOutcome.exited kRetryStatus

/-- The rmdir loop of remove_dir starting at attempt i (the C loop starts at
i = 0). -/
def rmdirLoop (res : Nat → RmdirResult) (um : Nat → Bool) (i : Nat) : RmdirOutcome :=
  rmdirLoopGo res um (100 - i) i

/-- One listing pass of remove_dir over a directory: whether opendir succeeds
(both opendir failure branches of the source call exitf), the per-entry oracles
of the non-directory entries listed by this pass, and the rmdir/umount oracles
of the rmdir loop that follows the pass. -/
structure DirPass where
  opendirOk : Bool
  entries : List ((Nat → UnlinkResult) × (Nat → Bool))
  rmres : Nat → RmdirResult
  rmum : Nat → Bool

/-- Process the entries of one listing pass in order with the per-entry loop;
the first entry whose loop calls exitf aborts the process with that status. -/
def processEntries : List ((Nat → UnlinkResult) × (Nat → Bool)) → Option Nat
  | [] => none
  | e :: rest =>
    match (unlinkLoop e.1 e.2 0).1 with
    | EntryOutcome.exited s => some s
    | _ => processEntries rest

/-- How remove_dir ends for one directory. -/
inductive RemoveDirOutcome where
  | removed
  | skippedReadOnly
  | exited (status : Nat)
deriving DecidableEq

/-- The outer retry structure of remove_dir: run the listing pass for the
current iter (opendir, entries, rmdir loop); when the rmdir loop reports
ENOTEMPTY within its own budget, re-list with iter incremented while
iter < 100 retries remain (left = 100 - iter), else exitf. -/
def removeDirGo (passes : Nat → DirPass) : Nat → Nat → RemoveDirOutcome
  | left, iter =>
    if (passes iter).opendirOk = false then RemoveDirOutcome.exited kRetryStatus
    else
      match processEntries (passes iter).entries with
      | some s => RemoveDirOutcome.exited s
      | none =>
        match rmdirLoop (passes iter).rmres (passes iter).rmum 0 with
        | RmdirOutcome.removed => RemoveDirOutcome.removed
        | RmdirOutcome.skippedReadOnly => RemoveDirOutcome.skippedReadOnly
        | RmdirOutcome.exited s => RemoveDirOutcome.exited s
        | RmdirOutcome.dirNotEmpty =>
          match left with
          | 0 => RemoveDirOutcome.exited kRetryStatus
          | left' + 1 => removeDirGo passes left' (iter + 1)

/-- remove_dir from common.h on one directory of non-directory entries: the
goto-retry loop starts at iter = 0 with the iter < 100 budget. -/
def remove_dir (passes : Nat → DirPass) : RemoveDirOutcome :=
  removeDirGo passes 100 0

/-! ## loop (common.h lines 489-524) -/

/-- Events of one supervisor iteration, in the order the source performs them. -/
inductive LoopEvent where
  | mkdirIter (iter : Nat)
  | forkWorker (iter : Nat)
  | killProcessGroup (iter : Nat)
  | killWorker (iter : Nat)
  | waitBlocking (iter : Nat)
  | workerReaped (iter : Nat)
  | reclaimDir (iter : Nat)
deriving DecidableEq

/-- How the bounded wait for the worker ended: reaped by the WNOHANG poll at
poll index t, or the 5000 ms deadline elapsed at poll index t. -/
inductive WaitOutcome where
  | reapedNormally (t : Nat)
  | killedOnDeadline (t : Nat)
deriving DecidableEq

/-- The wait loop of loop(): at poll t, waitpid(pid, __WALL | WNOHANG) reaps
the worker iff reapedAt t; otherwise usleep(1000) and check the deadline
current_time_ms() - start > 5 * 1000, with elapsed t the milliseconds since
start after the t-th sleep.  fuel bounds the modelled number of polls; none
means the bound was reached with the loop still polling. -/
def waitLoop (reapedAt : Nat → Bool) (elapsed : Nat → Nat) : Nat → Nat → Option WaitOutcome
  | 0, _ => none
  | fuel + 1, t =>
    if reapedAt t then some (WaitOutcome.reapedNormally t)
    else if 5000 < elapsed t then some (WaitOutcome.killedOnDeadline t)
    else waitLoop reapedAt elapsed fuel (t + 1)

/-- The events of one iteration of loop(): mkdir("./iter"), fork the worker,
run the wait loop; if the deadline elapsed first, kill(-pid, SIGKILL), then
kill(pid, SIGKILL), then a blocking waitpid; in both cases the worker is
reaped and then remove_dir(cwdbuf) reclaims the iteration directory. -/
def iterEvents (iter : Nat) (reapedAt : Nat → Bool) (elapsed : Nat → Nat) (fuel : Nat) :
    Option (List LoopEvent) :=
  match waitLoop reapedAt elapsed fuel 0 with
  | none => none
  | some (WaitOutcome.reapedNormally _) =>
    some [LoopEvent.mkdirIter iter, LoopEvent.forkWorker iter,
      LoopEvent.workerReaped iter, LoopEvent.reclaimDir iter]
  | some (WaitOutcome.killedOnDeadline _) =>
    some [LoopEvent.mkdirIter iter, LoopEvent.forkWorker iter,
      LoopEvent.killProcessGroup iter, LoopEvent.killWorker iter,
      LoopEvent.waitBlocking iter, LoopEvent.workerReaped iter, LoopEvent.reclaimDir iter]

/-- The events of the first n iterations of loop(), concatenated in order;
oracles gives each iteration its worker-termination and clock behaviour. -/
def loopEvents (oracles : Nat → (Nat → Bool) × (Nat → Nat)) (fuel : Nat) :
    Nat → Option (List LoopEvent)
  | 0 => some []
  | n + 1 =>
    match loopEvents oracles fuel n, iterEvents n (oracles n).1 (oracles n).2 fuel with
    | some evs, some evs2 => some (evs ++ evs2)
    | _, _ => none

/-! ## Theorems for claims C1, C4, and helper lemmas for C2/C7 -/

theorem runBlock_append_faulty {σ : Type} (pre post : List (GuardOp σ)) (s : σ)
    (h : (runBlock pre s).2 = false) :
    runBlock (pre ++ GuardOp.faulty :: post) s = ((runBlock pre s).1, true) := by
  induction pre generalizing s with
  | nil => simp [runBlock]
  | cons op rest ih =>
    cases op with
    | eff f =>
      simp only [runBlock, List.cons_append] at h ⊢
      exact ih (f s) h
    | faulty => simp [runBlock] at h

/-- Claim C1: for every guarded block executed under NONFAILING, if the block
faults the process stays alive, the remainder of the block is abandoned (the
state is the one produced by the operations before the faulting one), and
control arrives exactly once at the point after the guard; faulting or not, the
skip_segv counter after the guard equals its value before the guard. -/
theorem c1_guarded_block_fault_recovery {σ : Type} (blk : List (GuardOp σ)) (skip0 : Nat) (s0 : σ) :
    (NONFAILING blk skip0 s0).alive = true ∧
    (NONFAILING blk skip0 s0).resumeCount = 1 ∧
    (NONFAILING blk skip0 s0).skip_segv = skip0 ∧
    ((runBlock blk s0).2 = true → (NONFAILING blk skip0 s0).blockCompleted = false) ∧
    (∀ pre post, blk = pre ++ GuardOp.faulty :: post → (runBlock pre s0).2 = false →
      (NONFAILING blk skip0 s0).state = (runBlock pre s0).1) := by
  refine ⟨?_, ?_, ?_, ?_, ?_⟩
  · cases h : (runBlock blk s0).2 <;> simp [NONFAILING, h]
  · cases h : (runBlock blk s0).2 <;> simp [NONFAILING, h]
  · cases h : (runBlock blk s0).2 <;> simp [NONFAILING, h]
  · intro h; simp [NONFAILING, h]
  · intro pre post hblk hpre
    subst hblk
    have hrun := runBlock_append_faulty pre post s0 hpre
    simp [NONFAILING, hrun]

theorem c1_witness :
    (NONFAILING [GuardOp.eff (fun n => n + 3), GuardOp.faulty, GuardOp.eff (fun n => n * 2)]
        5 (0 : Nat)).alive = true ∧
    (NONFAILING [GuardOp.eff (fun n => n + 3), GuardOp.faulty, GuardOp.eff (fun n => n * 2)]
        5 (0 : Nat)).resumeCount = 1 ∧
    (NONFAILING [GuardOp.eff (fun n => n + 3), GuardOp.faulty, GuardOp.eff (fun n => n * 2)]
        5 (0 : Nat)).skip_segv = 5 ∧
    (NONFAILING [GuardOp.eff (fun n => n + 3), GuardOp.faulty, GuardOp.eff (fun n => n * 2)]
        5 (0 : Nat)).blockCompleted = false ∧
    (NONFAILING [GuardOp.eff (fun n => n + 3), GuardOp.faulty, GuardOp.eff (fun n => n * 2)]
        5 (0 : Nat)).state = 3 := by
  have h := c1_guarded_block_fault_recovery
    [GuardOp.eff (fun n => n + 3), GuardOp.faulty, GuardOp.eff (fun n => n * 2)] 5 (0 : Nat)
  refine ⟨h.1, h.2.1, h.2.2.1, h.2.2.2.1 rfl, ?_⟩
  have hs := h.2.2.2.2 [GuardOp.eff (fun n => n + 3)] [GuardOp.eff (fun n => n * 2)] rfl rfl
  simpa [runBlock] using hs

/-- Claim C4: a fault signal delivered while the thread's skip_segv counter is
zero terminates the process with the raw signal number as exit status, which is
distinct from the three explicit statuses. -/
theorem c4_unguarded_fault (sig : Nat) (h : sig = SIGSEGV ∨ sig = SIGBUS) :
    segv_handler 0 sig = SegvOutcome.exited sig ∧
    sig ≠ kFailStatus ∧ sig ≠ kErrorStatus ∧ sig ≠ kRetryStatus := by
  rcases h with h | h <;> subst h <;> exact ⟨rfl, by decide, by decide, by decide⟩

theorem c4_witness :
    ((11 : Nat) = SIGSEGV ∨ (11 : Nat) = SIGBUS) ∧
    (segv_handler 0 11 = SegvOutcome.exited 11 ∧
      (11 : Nat) ≠ kFailStatus ∧ (11 : Nat) ≠ kErrorStatus ∧ (11 : Nat) ≠ kRetryStatus) :=
  ⟨Or.inl rfl, c4_unguarded_fault 11 (Or.inl rfl)⟩

theorem substHashes_length (tmpl : List Char) : ∀ v, (substHashes tmpl v).length = tmpl.length := by
  induction tmpl with
  | nil => intro v; rfl
  | cons c rest ih =>
    intro v
    by_cases hc : c = '#' <;> simp [substHashes, hc, ih]

theorem specHashSubst_length (tmpl : List Char) : ∀ v i, (specHashSubst tmpl v i).length = tmpl.length := by
  induction tmpl with
  | nil => intro v i; rfl
  | cons c rest ih =>
    intro v i
    by_cases hc : c = '#' <;> simp [specHashSubst, hc, ih]

theorem substHashes_eq_spec (tmpl : List Char) : ∀ v i, substHashes tmpl (v / 10 ^ i) = specHashSubst tmpl v i := by
  induction tmpl with
  | nil => intro v i; rfl
  | cons c rest ih =>
    intro v i
    by_cases hc : c = '#'
    · simp only [substHashes, specHashSubst, hc, if_pos]
      refine congrArg₂ List.cons rfl ?_
      rw [Nat.div_div_eq_div_mul, ← pow_succ]
      exact ih v (i + 1)
    · simp only [substHashes, specHashSubst, hc, if_neg, not_false_iff]
      exact congrArg₂ List.cons rfl (ih v i)

/-- Claim C2 counterexample: the claim as stated fails for a template of 1024
characters (here 1024 copies of 'a', containing zero placeholder occurrences):
the source truncates the template to the 1024-byte buffer before substituting,
so the path passed to open is not the substituted template. -/
theorem c2_counterexample :
    (syz_open_dev_template (List.replicate 1024 'a') 0 0).path ≠
      specHashSubst (List.replicate 1024 'a') 0 0 := by
  intro h
  have h1 : (syz_open_dev_template (List.replicate 1024 'a') 0 0).path.length = 1023 := by
    show (substHashes ((List.replicate 1024 'a').take 1023) 0).length = 1023
    rw [substHashes_length, List.length_take, List.length_replicate]
    omega
  have h2 : (specHashSubst (List.replicate 1024 'a') 0 0).length = 1024 := by
    rw [specHashSubst_length, List.length_replicate]
  rw [h, h2] at h1
  omega

/-- Claim C2 (amended: template at most 1023 characters, the capacity of the
1024-byte buffer): for the non-reserved branch of syz_open_dev, the path passed
to open is the template with its placeholder occurrences replaced left to right
by the base-10 digits of the second argument, least-significant first, one
digit per placeholder, and the file is opened with the flags given by the third
argument (and mode 0). -/
theorem c2_template_substitution (tmpl : List Char) (a1 a2 : Nat) (h : tmpl.length ≤ 1023) :
    syz_open_dev_template tmpl a1 a2 = ⟨specHashSubst tmpl a1 0, a2, 0⟩ := by
  have hsub : substHashes tmpl a1 = specHashSubst tmpl a1 0 := by
    have := substHashes_eq_spec tmpl a1 0
    simpa using this
  simp [syz_open_dev_template, syz_open_dev_template_path, List.take_of_length_le h, hsub]

theorem c2_witness :
    (['d', '#', 'x', '#'] : List Char).length ≤ 1023 ∧
    syz_open_dev_template ['d', '#', 'x', '#'] 57 3 = ⟨specHashSubst ['d', '#', 'x', '#'] 57 0, 3, 0⟩ ∧
    specHashSubst ['d', '#', 'x', '#'] 57 0 = ['d', '7', 'x', '5'] :=
  ⟨by decide, c2_template_substitution ['d', '#', 'x', '#'] 57 3 (by decide), by decide⟩

/-- Claim C7: the reserved-marker branch of syz_open_dev opens exactly
/dev/char/M:N (marker 0xc) or /dev/block/M:N (marker 0xb) where M and N are the
low 8 bits of the second and third argument, with flags O_RDWR (read-write). -/
theorem c7_reserved_marker (a1 a2 : Nat) :
    syz_open_dev_marker 12 a1 a2 =
      ⟨"/dev/char/".toList ++ decimalDigits (a1 % 256) ++ ':' :: decimalDigits (a2 % 256),
        O_RDWR, 0⟩ ∧
    syz_open_dev_marker 11 a1 a2 =
      ⟨"/dev/block/".toList ++ decimalDigits (a1 % 256) ++ ':' :: decimalDigits (a2 % 256),
        O_RDWR, 0⟩ ∧
    a1 % 256 = a1 % 2 ^ 8 ∧ a2 % 256 = a2 % 2 ^ 8 ∧ O_RDWR = 2 := by
  refine ⟨?_, ?_, by norm_num, by norm_num, rfl⟩
  · show OpenCall.mk ("/dev/".toList ++ "char".toList ++ '/' ::
      (decimalDigits (a1 % 256) ++ ':' :: decimalDigits (a2 % 256))) O_RDWR 0 = _
    rw [List.append_assoc]
    rfl
  · show OpenCall.mk ("/dev/".toList ++ "block".toList ++ '/' ::
      (decimalDigits (a1 % 256) ++ ':' :: decimalDigits (a2 % 256))) O_RDWR 0 = _
    rw [List.append_assoc]
    rfl

/-- Claim C3 counterexample: the identifier of the syz_test pseudo-operation is
not one of the four identifiers named by the claim, yet the dispatcher does not
pass it through to the host call interface: it returns the synthetic test stub
(the source returns 0 without calling syscall). -/
theorem c3_counterexample :
    (NR_syz_test ≠ NR_syz_open_dev ∧ NR_syz_test ≠ NR_syz_open_pts ∧
      NR_syz_test ≠ NR_syz_fuse_mount ∧ NR_syz_test ≠ NR_syz_fuseblk_mount) ∧
    execute_syscall NR_syz_test 1 2 3 4 5 6 7 8 9 ≠
      DispatchAction.hostCall NR_syz_test 1 2 3 4 5 6 := by
  refine ⟨⟨by decide, by decide, by decide, by decide⟩, ?_⟩
  intro h
  simp [execute_syscall] at h

/-- Claim C3 (amended: five intercepted identifiers, not four — the switch also
intercepts syz_test, which returns 0): for every numeric identifier other than
the five intercepted ones, execute_syscall forwards the identifier and exactly
the first six arguments unchanged to the host's native call interface and
returns that call's result. -/
theorem c3_passthrough (nr a0 a1 a2 a3 a4 a5 a6 a7 a8 : Nat)
    (h1 : nr ≠ NR_syz_test) (h2 : nr ≠ NR_syz_open_dev) (h3 : nr ≠ NR_syz_open_pts)
    (h4 : nr ≠ NR_syz_fuse_mount) (h5 : nr ≠ NR_syz_fuseblk_mount) :
    execute_syscall nr a0 a1 a2 a3 a4 a5 a6 a7 a8 =
      DispatchAction.hostCall nr a0 a1 a2 a3 a4 a5 ∧
    hostResult (fun n b0 b1 b2 b3 b4 b5 => (n + b0 + b1 + b2 + b3 + b4 + b5 : Int))
        (execute_syscall nr a0 a1 a2 a3 a4 a5 a6 a7 a8) =
      some ((nr + a0 + a1 + a2 + a3 + a4 + a5 : Nat) : Int) := by
  have hd : execute_syscall nr a0 a1 a2 a3 a4 a5 a6 a7 a8 =
      DispatchAction.hostCall nr a0 a1 a2 a3 a4 a5 := by
    simp [execute_syscall, h1, h2, h3, h4, h5]
  refine ⟨hd, ?_⟩
  rw [hd]
  simp only [hostResult]
  push_cast
  ring_nf

theorem c3_witness :
    execute_syscall 42 10 11 12 13 14 15 16 17 18 =
      DispatchAction.hostCall 42 10 11 12 13 14 15 ∧
    hostResult (fun n b0 b1 b2 b3 b4 b5 => (n + b0 + b1 + b2 + b3 + b4 + b5 : Int))
        (execute_syscall 42 10 11 12 13 14 15 16 17 18) = some 117 :=
  ⟨(c3_passthrough 42 10 11 12 13 14 15 16 17 18 (by decide) (by decide) (by decide)
      (by decide) (by decide)).1,
    by
      have h := (c3_passthrough 42 10 11 12 13 14 15 16 17 18 (by decide) (by decide) (by decide)
        (by decide) (by decide)).2
      simpa using h⟩

/-- Claim C9: in the setuid sandbox policy, if clearing supplementary groups or
setting the real/effective/saved group or user ids to the unprivileged identity
fails, the worker process exits with the LogicalError status kFailStatus = 67;
all identity-setting calls use the unprivileged identity nobody = 65534. -/
theorem c9_setuid_failure (g r u : Bool) (h : g = false ∨ r = false ∨ u = false) :
    (do_sandbox_setuid_child g r u).1 = SandboxOutcome.exited kFailStatus ∧
    kFailStatus = 67 ∧ kFailStatus ≠ kErrorStatus ∧ kFailStatus ≠ kRetryStatus ∧
    (∀ a b c, SetuidStep.setresgidCall a b c ∈ (do_sandbox_setuid_child g r u).2 →
      a = 65534 ∧ b = 65534 ∧ c = 65534) ∧
    (∀ a b c, SetuidStep.setresuidCall a b c ∈ (do_sandbox_setuid_child g r u).2 →
      a = 65534 ∧ b = 65534 ∧ c = 65534) := by
  rcases h with h | h | h <;> subst h <;>
    refine ⟨?_, rfl, by decide, by decide, ?_, ?_⟩ <;>
    first
      | (cases g <;> cases r <;> cases u <;> simp [do_sandbox_setuid_child, nobody])
      | (cases g <;> cases r <;> simp [do_sandbox_setuid_child, nobody])
      | (cases g <;> cases u <;> simp [do_sandbox_setuid_child, nobody])
      | (cases r <;> cases u <;> simp [do_sandbox_setuid_child, nobody])
      | (intro a b c hm
         revert hm
         cases g <;> cases r <;> cases u <;>
           simp [do_sandbox_setuid_child, nobody] <;> omega)

theorem c9_witness :
    ((false : Bool) = false ∨ (true : Bool) = false ∨ (true : Bool) = false) ∧
    (do_sandbox_setuid_child false true true).1 = SandboxOutcome.exited kFailStatus ∧
    kFailStatus = 67 :=
  ⟨Or.inl rfl,
    (c9_setuid_failure false true true (Or.inl rfl)).1,
    (c9_setuid_failure false true true (Or.inl rfl)).2.1⟩

/-- Claim C8: syz_fuse_mount propagates an open("/dev/fuse") failure as its
return value; otherwise the option string is the base encoding of the fd, uid,
gid and masked root mode, with ",max_read=" appended exactly when maxread is
nonzero, ",default_permissions" exactly when mode bit 0 is set and
",allow_other" exactly when mode bit 1 is set, the mount targets the
caller-supplied path with type "fuse" and the given flags, and the opened
descriptor is returned whether or not the mount succeeds; the rootmode value
is the mode truncated to 32 bits with its two low bits cleared. -/
theorem c8_fuse_mount (openFd : Int) (ms : Bool) (target : List Char)
    (mode uid gid maxread flags : Nat) :
    (openFd = -1 → syz_fuse_mount openFd ms target mode uid gid maxread flags = ⟨openFd, none⟩) ∧
    (openFd ≠ -1 →
      (syz_fuse_mount openFd ms target mode uid gid maxread flags).ret = openFd ∧
      (syz_fuse_mount openFd ms target mode uid gid maxread flags).mount =
        some ⟨[], target, "fuse".toList, flags,
          fuseOptsBase openFd uid gid mode ++
          (if maxread ≠ 0 then ",max_read=".toList ++ signedDecimal (toSigned64 maxread) else []) ++
          (if mode.testBit 0 then ",default_permissions".toList else []) ++
          (if mode.testBit 1 then ",allow_other".toList else [])⟩) ∧
    fuse_rootmode mode % 4 = 0 ∧
    fuse_rootmode mode = mode % 4294967296 - mode % 4 := by
  refine ⟨?_, ?_, ?_, ?_⟩
  · intro h; simp [syz_fuse_mount, h]
  · intro h
    refine ⟨?_, ?_⟩ <;> simp [syz_fuse_mount, h, fuseOpts]
  · show mode % 4294967296 / 4 * 4 % 4 = 0
    omega
  · show mode % 4294967296 / 4 * 4 = mode % 4294967296 - mode % 4
    omega

theorem c8_witness :
    ((5 : Int) ≠ -1) ∧
    (syz_fuse_mount 5 false ['t'] 3 1000 1001 0 7).ret = 5 ∧
    (syz_fuse_mount 5 false ['t'] 3 1000 1001 0 7).mount =
      some ⟨[], ['t'], "fuse".toList, 7,
        "fd=5,user_id=1000,group_id=1001,rootmode=00,default_permissions,allow_other".toList⟩ :=
  ⟨by decide,
    ((c8_fuse_mount 5 false ['t'] 3 1000 1001 0 7).2.1 (by decide)).1,
    by
      have h := ((c8_fuse_mount 5 false ['t'] 3 1000 1001 0 7).2.1 (by decide)).2
      rw [h]
      rfl⟩

/-- Claim C10: when open("/dev/fuse") succeeds but the mknodat call creating
the block device node at the caller-given path fails, syz_fuseblk_mount
returns the opened descriptor without attempting the mount call; every block
node it creates carries the fixed device numbers makedev(7, 199) regardless of
the arguments. -/
theorem c10_fuseblk_mknod_failure (openFd : Int) (mk ms : Bool) (target blkdev : List Char)
    (mode uid gid maxread blksize flags : Nat) :
    (openFd ≠ -1 → mk = false →
      syz_fuseblk_mount openFd mk ms target blkdev mode uid gid maxread blksize flags =
        ⟨openFd, some (blkdev, 7, 199), none⟩) ∧
    (∀ p a b,
      (syz_fuseblk_mount openFd mk ms target blkdev mode uid gid maxread blksize flags).mknodCall =
        some (p, a, b) → p = blkdev ∧ a = 7 ∧ b = 199) := by
  constructor
  · intro h1 h2; simp [syz_fuseblk_mount, h1, h2]
  · intro p a b hm
    by_cases h1 : openFd = -1
    · simp [syz_fuseblk_mount, h1] at hm
    · cases mk <;> simp [syz_fuseblk_mount, h1] at hm <;>
        exact ⟨hm.1.symm, hm.2.1.symm, hm.2.2.symm⟩

theorem c10_witness :
    ((4 : Int) ≠ -1) ∧
    syz_fuseblk_mount 4 false true [] ['b'] 0 0 0 0 0 0 = ⟨4, some (['b'], 7, 199), none⟩ ∧
    (['b'] : List Char) = ['b'] ∧ (7 : Nat) = 7 ∧ (199 : Nat) = 199 :=
  ⟨by decide,
    (c10_fuseblk_mknod_failure 4 false true [] ['b'] 0 0 0 0 0 0).1 (by decide) rfl,
    (c10_fuseblk_mknod_failure 4 false true [] ['b'] 0 0 0 0 0 0).2 ['b'] 7 199
      (by rw [(c10_fuseblk_mknod_failure 4 false true [] ['b'] 0 0 0 0 0 0).1 (by decide) rfl])⟩

theorem unlinkLoopGo_ok (res : Nat → UnlinkResult) (um : Nat → Bool) (left i : Nat)
    (h : res i = UnlinkResult.ok) :
    unlinkLoopGo res um left i = (EntryOutcome.removed, [FsAction.unlinkCall i]) := by
  cases left <;> simp only [unlinkLoopGo, h]

theorem unlinkLoopGo_erofs (res : Nat → UnlinkResult) (um : Nat → Bool) (left i : Nat)
    (h : res i = UnlinkResult.erofs) :
    unlinkLoopGo res um left i = (EntryOutcome.skippedReadOnly, [FsAction.unlinkCall i]) := by
  cases left <;> simp only [unlinkLoopGo, h]

theorem unlinkLoopGo_other (res : Nat → UnlinkResult) (um : Nat → Bool) (left i : Nat)
    (h : res i = UnlinkResult.other) :
    unlinkLoopGo res um left i = (EntryOutcome.exited kRetryStatus, [FsAction.unlinkCall i]) := by
  cases left <;> simp only [unlinkLoopGo, h]

theorem unlinkLoopGo_ebusy_zero (res : Nat → UnlinkResult) (um : Nat → Bool) (i : Nat)
    (h : res i = UnlinkResult.ebusy) :
    unlinkLoopGo res um 0 i = (EntryOutcome.exited kRetryStatus, [FsAction.unlinkCall i]) := by
  simp only [unlinkLoopGo, h]

theorem unlinkLoopGo_ebusy_retry (res : Nat → UnlinkResult) (um : Nat → Bool) (left' i : Nat)
    (h : res i = UnlinkResult.ebusy) (hum : um i = true) :
    unlinkLoopGo res um (left' + 1) i =
      ((unlinkLoopGo res um left' (i + 1)).1,
        FsAction.unlinkCall i :: FsAction.umountDetach i ::
          (unlinkLoopGo res um left' (i + 1)).2) := by
  simp only [unlinkLoopGo, h, hum, if_true]

theorem unlinkLoopGo_ebusy_umount_fail (res : Nat → UnlinkResult) (um : Nat → Bool) (left' i : Nat)
    (h : res i = UnlinkResult.ebusy) (hum : um i = false) :
    unlinkLoopGo res um (left' + 1) i =
      (EntryOutcome.exited kRetryStatus, [FsAction.unlinkCall i, FsAction.umountDetach i]) := by
  simp only [unlinkLoopGo, h, hum]
  simp

theorem unlinkLoopGo_exit_status (res : Nat → UnlinkResult) (um : Nat → Bool) :
    ∀ left i s, (unlinkLoopGo res um left i).1 = EntryOutcome.exited s → s = kRetryStatus := by
  intro left
  induction left with
  | zero =>
    intro i s h
    cases hres : res i
    · rw [unlinkLoopGo_ok res um 0 i hres] at h; simp at h
    · rw [unlinkLoopGo_erofs res um 0 i hres] at h; simp at h
    · rw [unlinkLoopGo_ebusy_zero res um i hres] at h; simp at h; omega
    · rw [unlinkLoopGo_other res um 0 i hres] at h; simp at h; omega
  | succ left' ih =>
    intro i s h
    cases hres : res i
    · rw [unlinkLoopGo_ok res um (left' + 1) i hres] at h; simp at h
    · rw [unlinkLoopGo_erofs res um (left' + 1) i hres] at h; simp at h
    · cases hum : um i
      · rw [unlinkLoopGo_ebusy_umount_fail res um left' i hres hum] at h; simp at h; omega
      · rw [unlinkLoopGo_ebusy_retry res um left' i hres hum] at h
        exact ih (i + 1) s h
    · rw [unlinkLoopGo_other res um (left' + 1) i hres] at h; simp at h; omega

theorem unlinkLoopGo_length (res : Nat → UnlinkResult) (um : Nat → Bool) :
    ∀ left i, ((unlinkLoopGo res um left i).2).length ≤ 2 * left + 2 := by
  intro left
  induction left with
  | zero =>
    intro i
    cases hres : res i
    · rw [unlinkLoopGo_ok res um 0 i hres]; simp
    · rw [unlinkLoopGo_erofs res um 0 i hres]; simp
    · rw [unlinkLoopGo_ebusy_zero res um i hres]; simp
    · rw [unlinkLoopGo_other res um 0 i hres]; simp
  | succ left' ih =>
    intro i
    cases hres : res i
    · rw [unlinkLoopGo_ok res um (left' + 1) i hres]; simp
    · rw [unlinkLoopGo_erofs res um (left' + 1) i hres]; simp
    · cases hum : um i
      · rw [unlinkLoopGo_ebusy_umount_fail res um left' i hres hum]; simp
      · rw [unlinkLoopGo_ebusy_retry res um left' i hres hum]
        have := ih (i + 1)
        simp only [List.length_cons]
        omega
    · rw [unlinkLoopGo_other res um (left' + 1) i hres]; simp

theorem rmdirLoopGo_ok (res : Nat → RmdirResult) (um : Nat → Bool) (left i : Nat)
    (h : res i = RmdirResult.ok) : rmdirLoopGo res um left i = RmdirOutcome.removed := by
  cases left <;> simp only [rmdirLoopGo, h]

theorem rmdirLoopGo_other (res : Nat → RmdirResult) (um : Nat → Bool) (left i : Nat)
    (h : res i = RmdirResult.other) :
    rmdirLoopGo res um left i = RmdirOutcome.exited kRetryStatus := by
  cases left <;> simp only [rmdirLoopGo, h]

theorem rmdirLoopGo_erofs_zero (res : Nat → RmdirResult) (um : Nat → Bool) (i : Nat)
    (h : res i = RmdirResult.erofs) :
    rmdirLoopGo res um 0 i = RmdirOutcome.exited kRetryStatus := by
  simp only [rmdirLoopGo, h]

theorem rmdirLoopGo_erofs_succ (res : Nat → RmdirResult) (um : Nat → Bool) (left' i : Nat)
    (h : res i = RmdirResult.erofs) :
    rmdirLoopGo res um (left' + 1) i = RmdirOutcome.skippedReadOnly := by
  simp only [rmdirLoopGo, h]

theorem rmdirLoopGo_enotempty_zero (res : Nat → RmdirResult) (um : Nat → Bool) (i : Nat)
    (h : res i = RmdirResult.enotempty) :
    rmdirLoopGo res um 0 i = RmdirOutcome.exited kRetryStatus := by
  simp only [rmdirLoopGo, h]

theorem rmdirLoopGo_enotempty_succ (res : Nat → RmdirResult) (um : Nat → Bool) (left' i : Nat)
    (h : res i = RmdirResult.enotempty) :
    rmdirLoopGo res um (left' + 1) i = RmdirOutcome.dirNotEmpty := by
  simp only [rmdirLoopGo, h]

theorem rmdirLoopGo_ebusy_zero (res : Nat → RmdirResult) (um : Nat → Bool) (i : Nat)
    (h : res i = RmdirResult.ebusy) :
    rmdirLoopGo res um 0 i = RmdirOutcome.exited kRetryStatus := by
  simp only [rmdirLoopGo, h]

theorem rmdirLoopGo_ebusy_retry (res : Nat → RmdirResult) (um : Nat → Bool) (left' i : Nat)
    (h : res i = RmdirResult.ebusy) (hum : um i = true) :
    rmdirLoopGo res um (left' + 1) i = rmdirLoopGo res um left' (i + 1) := by
  simp only [rmdirLoopGo, h, hum, if_true]

theorem rmdirLoopGo_ebusy_umount_fail (res : Nat → RmdirResult) (um : Nat → Bool) (left' i : Nat)
    (h : res i = RmdirResult.ebusy) (hum : um i = false) :
    rmdirLoopGo res um (left' + 1) i = RmdirOutcome.exited kRetryStatus := by
  simp only [rmdirLoopGo, h, hum]
  simp

theorem rmdirLoopGo_exit_status (res : Nat → RmdirResult) (um : Nat → Bool) :
    ∀ left i s, rmdirLoopGo res um left i = RmdirOutcome.exited s → s = kRetryStatus := by
  intro left
  induction left with
  | zero =>
    intro i s h
    cases hres : res i
    · rw [rmdirLoopGo_ok res um 0 i hres] at h; simp at h
    · rw [rmdirLoopGo_erofs_zero res um i hres] at h; simp at h; omega
    · rw [rmdirLoopGo_ebusy_zero res um i hres] at h; simp at h; omega
    · rw [rmdirLoopGo_enotempty_zero res um i hres] at h; simp at h; omega
    · rw [rmdirLoopGo_other res um 0 i hres] at h; simp at h; omega
  | succ left' ih =>
    intro i s h
    cases hres : res i
    · rw [rmdirLoopGo_ok res um (left' + 1) i hres] at h; simp at h
    · rw [rmdirLoopGo_erofs_succ res um left' i hres] at h; simp at h
    · cases hum : um i
      · rw [rmdirLoopGo_ebusy_umount_fail res um left' i hres hum] at h; simp at h; omega
      · rw [rmdirLoopGo_ebusy_retry res um left' i hres hum] at h
        exact ih (i + 1) s h
    · rw [rmdirLoopGo_enotempty_succ res um left' i hres] at h; simp at h
    · rw [rmdirLoopGo_other res um (left' + 1) i hres] at h; simp at h; omega

theorem processEntries_exit_status :
    ∀ es s, processEntries es = some s → s = kRetryStatus := by
  intro es
  induction es with
  | nil => intro s h; simp [processEntries] at h
  | cons e rest ih =>
    intro s h
    cases ho : (unlinkLoop e.1 e.2 0).1 with
    | exited s' =>
      have hs' : s' = kRetryStatus := unlinkLoopGo_exit_status e.1 e.2 (101 - 0) 0 s' ho
      simp [processEntries, ho] at h
      omega
    | removed =>
      simp [processEntries, ho] at h
      exact ih s h
    | skippedReadOnly =>
      simp [processEntries, ho] at h
      exact ih s h

theorem removeDirGo_opendir_fail (passes : Nat → DirPass) (left iter : Nat)
    (hod : (passes iter).opendirOk = false) :
    removeDirGo passes left iter = RemoveDirOutcome.exited kRetryStatus := by
  cases left <;> simp [removeDirGo, hod]

theorem removeDirGo_entries_exit (passes : Nat → DirPass) (left iter s : Nat)
    (hod : (passes iter).opendirOk = true)
    (hpe : processEntries (passes iter).entries = some s) :
    removeDirGo passes left iter = RemoveDirOutcome.exited s := by
  cases left <;> simp [removeDirGo, hod, hpe]

theorem removeDirGo_rmdir (passes : Nat → DirPass) (left iter : Nat) (o : RmdirOutcome)
    (hod : (passes iter).opendirOk = true)
    (hpe : processEntries (passes iter).entries = none)
    (hrm : rmdirLoop (passes iter).rmres (passes iter).rmum 0 = o) :
    removeDirGo passes left iter =
      match o with
      | RmdirOutcome.removed => RemoveDirOutcome.removed
      | RmdirOutcome.skippedReadOnly => RemoveDirOutcome.skippedReadOnly
      | RmdirOutcome.exited s => RemoveDirOutcome.exited s
      | RmdirOutcome.dirNotEmpty =>
        match left with
        | 0 => RemoveDirOutcome.exited kRetryStatus
        | left' + 1 => removeDirGo passes left' (iter + 1) := by
  cases left <;> cases o <;> simp [removeDirGo, hod, hpe, hrm]

theorem removeDirGo_exit_status (passes : Nat → DirPass) :
    ∀ left iter s, removeDirGo passes left iter = RemoveDirOutcome.exited s →
      s = kRetryStatus := by
  intro left
  induction left with
  | zero =>
    intro iter s h
    cases hod : (passes iter).opendirOk
    · rw [removeDirGo_opendir_fail passes 0 iter hod] at h
      simp at h; omega
    · cases hpe : processEntries (passes iter).entries with
      | some s' =>
        rw [removeDirGo_entries_exit passes 0 iter s' hod hpe] at h
        simp at h
        have := processEntries_exit_status (passes iter).entries s' hpe
        omega
      | none =>
        cases hrm : rmdirLoop (passes iter).rmres (passes iter).rmum 0 <;>
          rw [removeDirGo_rmdir passes 0 iter _ hod hpe hrm] at h <;> simp at h
        · omega
        · have := rmdirLoopGo_exit_status (passes iter).rmres (passes iter).rmum (100 - 0) 0 _ hrm
          omega
  | succ left' ih =>
    intro iter s h
    cases hod : (passes iter).opendirOk
    · rw [removeDirGo_opendir_fail passes (left' + 1) iter hod] at h
      simp at h; omega
    · cases hpe : processEntries (passes iter).entries with
      | some s' =>
        rw [removeDirGo_entries_exit passes (left' + 1) iter s' hod hpe] at h
        simp at h
        have := processEntries_exit_status (passes iter).entries s' hpe
        omega
      | none =>
        cases hrm : rmdirLoop (passes iter).rmres (passes iter).rmum 0 <;>
          rw [removeDirGo_rmdir passes (left' + 1) iter _ hod hpe hrm] at h
        · simp at h
        · simp at h
        · exact ih (iter + 1) s h
        · simp at h
          have := rmdirLoopGo_exit_status (passes iter).rmres (passes iter).rmum (100 - 0) 0 _ hrm
          omega

/-- Claim C5: in remove_dir, a non-directory entry whose unlink fails with
EBUSY within the roughly-one-hundred-attempt budget (i at most 100) is
detach-unmounted and the unlink retried; an entry failing with EROFS is
skipped; the per-entry loop performs a bounded number of filesystem calls
(at most 102 unlink attempts, hence at most 204 recorded calls); and every
process exit taken anywhere in the reclaimer (per-entry loop, rmdir loop,
outer re-listing loop, opendir failure) carries the TransientError status
kRetryStatus, never the LogicalError status kFailStatus. -/
theorem c5_reclaimer (res : Nat → UnlinkResult) (um : Nat → Bool) (i : Nat)
    (passes : Nat → DirPass) (left2 iter2 s2 : Nat) :
    (res i = UnlinkResult.ebusy → i ≤ 100 → um i = true →
      unlinkLoop res um i =
        ((unlinkLoop res um (i + 1)).1,
          FsAction.unlinkCall i :: FsAction.umountDetach i ::
            (unlinkLoop res um (i + 1)).2)) ∧
    (res i = UnlinkResult.erofs →
      unlinkLoop res um i = (EntryOutcome.skippedReadOnly, [FsAction.unlinkCall i])) ∧
    ((unlinkLoop res um 0).2).length ≤ 204 ∧
    (removeDirGo passes left2 iter2 = RemoveDirOutcome.exited s2 → s2 = kRetryStatus) ∧
    kRetryStatus ≠ kFailStatus := by
  refine ⟨?_, ?_, ?_, ?_, by decide⟩
  · intro h1 h2 h3
    have hk : 101 - i = (100 - i) + 1 := by omega
    have hk2 : 101 - (i + 1) = 100 - i := by omega
    rw [unlinkLoop, unlinkLoop, hk, hk2]
    exact unlinkLoopGo_ebusy_retry res um (100 - i) i h1 h3
  · intro h1
    rw [unlinkLoop]
    exact unlinkLoopGo_erofs res um (101 - i) i h1
  · have := unlinkLoopGo_length res um (101 - 0) 0
    rw [unlinkLoop]
    omega
  · exact removeDirGo_exit_status passes left2 iter2 s2

theorem c5_witness :
    ((fun j => if j = 0 then UnlinkResult.ebusy else UnlinkResult.ok) 0 = UnlinkResult.ebusy) ∧
    (0 : Nat) ≤ 100 ∧
    unlinkLoop (fun j => if j = 0 then UnlinkResult.ebusy else UnlinkResult.ok)
        (fun _ => true) 0 =
      ((unlinkLoop (fun j => if j = 0 then UnlinkResult.ebusy else UnlinkResult.ok)
          (fun _ => true) 1).1,
        FsAction.unlinkCall 0 :: FsAction.umountDetach 0 ::
          (unlinkLoop (fun j => if j = 0 then UnlinkResult.ebusy else UnlinkResult.ok)
            (fun _ => true) 1).2) ∧
    unlinkLoop (fun j => if j = 0 then UnlinkResult.ebusy else UnlinkResult.ok)
        (fun _ => true) 0 =
      (EntryOutcome.removed,
        [FsAction.unlinkCall 0, FsAction.umountDetach 0, FsAction.unlinkCall 1]) ∧
    unlinkLoop (fun _ => UnlinkResult.erofs) (fun _ => true) 0 =
      (EntryOutcome.skippedReadOnly, [FsAction.unlinkCall 0]) ∧
    ((unlinkLoop (fun j => if j = 0 then UnlinkResult.ebusy else UnlinkResult.ok)
        (fun _ => true) 0).2).length ≤ 204 ∧
    removeDirGo (fun _ => DirPass.mk false [] (fun _ => RmdirResult.ok) (fun _ => true)) 100 0 =
      RemoveDirOutcome.exited 69 ∧
    (69 : Nat) = kRetryStatus ∧
    kRetryStatus ≠ kFailStatus := by
  refine ⟨rfl, by decide, ?_, by decide, ?_, ?_, by decide, ?_, ?_⟩
  · exact (c5_reclaimer (fun j => if j = 0 then UnlinkResult.ebusy else UnlinkResult.ok)
      (fun _ => true) 0 (fun _ => DirPass.mk false [] (fun _ => RmdirResult.ok) (fun _ => true))
      100 0 69).1 rfl (by decide) rfl
  · exact (c5_reclaimer (fun _ => UnlinkResult.erofs) (fun _ => true) 0
      (fun _ => DirPass.mk false [] (fun _ => RmdirResult.ok) (fun _ => true)) 100 0 69).2.1 rfl
  · exact (c5_reclaimer (fun j => if j = 0 then UnlinkResult.ebusy else UnlinkResult.ok)
      (fun _ => true) 0 (fun _ => DirPass.mk false [] (fun _ => RmdirResult.ok) (fun _ => true))
      100 0 69).2.2.1
  · exact (c5_reclaimer (fun j => if j = 0 then UnlinkResult.ebusy else UnlinkResult.ok)
      (fun _ => true) 0 (fun _ => DirPass.mk false [] (fun _ => RmdirResult.ok) (fun _ => true))
      100 0 69).2.2.2.1 (by decide)
  · exact (c5_reclaimer (fun j => if j = 0 then UnlinkResult.ebusy else UnlinkResult.ok)
      (fun _ => true) 0 (fun _ => DirPass.mk false [] (fun _ => RmdirResult.ok) (fun _ => true))
      100 0 69).2.2.2.2

theorem waitLoop_killed (reapedAt : Nat → Bool) (elapsed : Nat → Nat) :
    ∀ fuel t0 t, waitLoop reapedAt elapsed fuel t0 = some (WaitOutcome.killedOnDeadline t) →
      reapedAt t = false ∧ 5000 < elapsed t := by
  intro fuel
  induction fuel with
  | zero => intro t0 t h; simp [waitLoop] at h
  | succ f ih =>
    intro t0 t h
    by_cases h1 : reapedAt t0
    · simp [waitLoop, h1] at h
    · by_cases h2 : 5000 < elapsed t0
      · simp [waitLoop, h1, h2] at h
        subst h
        exact ⟨by simpa using h1, h2⟩
      · simp [waitLoop, h1, h2] at h
        exact ih (t0 + 1) t h

/-- Claim C6: in every supervisor iteration, when the worker is still running
as the 5-second deadline elapses (the wait loop reports killedOnDeadline, which
entails the worker was not reaped at that poll and the elapsed time exceeded
5000 ms), the supervisor kills the worker's whole process group, then the
worker, then performs a blocking wait, and only then, with the worker reaped,
reclaims the iteration directory; when the worker is reaped by the WNOHANG
poll the directory is likewise reclaimed only after the reap; and iteration
n + 1 appends its events (starting with its mkdir) after all events of
iteration n (ending with its reclaim), so each directory is reclaimed before
the next iteration's directory is created. -/
theorem c6_supervisor (reapedAt : Nat → Bool) (elapsed : Nat → Nat)
    (oracles : Nat → (Nat → Bool) × (Nat → Nat)) (fuel iter n t : Nat)
    (a b : List LoopEvent) :
    (waitLoop reapedAt elapsed fuel 0 = some (WaitOutcome.killedOnDeadline t) →
      iterEvents iter reapedAt elapsed fuel =
        some [LoopEvent.mkdirIter iter, LoopEvent.forkWorker iter,
          LoopEvent.killProcessGroup iter, LoopEvent.killWorker iter,
          LoopEvent.waitBlocking iter, LoopEvent.workerReaped iter,
          LoopEvent.reclaimDir iter]) ∧
    (waitLoop reapedAt elapsed fuel 0 = some (WaitOutcome.reapedNormally t) →
      iterEvents iter reapedAt elapsed fuel =
        some [LoopEvent.mkdirIter iter, LoopEvent.forkWorker iter,
          LoopEvent.workerReaped iter, LoopEvent.reclaimDir iter]) ∧
    (loopEvents oracles fuel n = some a →
      iterEvents n (oracles n).1 (oracles n).2 fuel = some b →
      loopEvents oracles fuel (n + 1) = some (a ++ b)) ∧
    (waitLoop reapedAt elapsed fuel 0 = some (WaitOutcome.killedOnDeadline t) →
      reapedAt t = false ∧ 5000 < elapsed t) := by
  refine ⟨?_, ?_, ?_, ?_⟩
  · intro h; simp [iterEvents, h]
  · intro h; simp [iterEvents, h]
  · intro ha hb; simp [loopEvents, ha, hb]
  · intro h; exact waitLoop_killed reapedAt elapsed fuel 0 t h

theorem c6_witness :
    waitLoop (fun _ => false) (fun _ => 6000) 3 0 = some (WaitOutcome.killedOnDeadline 0) ∧
    iterEvents 0 (fun _ => false) (fun _ => 6000) 3 =
      some [LoopEvent.mkdirIter 0, LoopEvent.forkWorker 0,
        LoopEvent.killProcessGroup 0, LoopEvent.killWorker 0,
        LoopEvent.waitBlocking 0, LoopEvent.workerReaped 0, LoopEvent.reclaimDir 0] ∧
    waitLoop (fun _ => true) (fun _ => 0) 3 0 = some (WaitOutcome.reapedNormally 0) ∧
    iterEvents 1 (fun _ => true) (fun _ => 0) 3 =
      some [LoopEvent.mkdirIter 1, LoopEvent.forkWorker 1,
        LoopEvent.workerReaped 1, LoopEvent.reclaimDir 1] ∧
    loopEvents (fun _ => (fun _ => false, fun _ => 6000)) 3 1 =
      some ([] ++ [LoopEvent.mkdirIter 0, LoopEvent.forkWorker 0,
        LoopEvent.killProcessGroup 0, LoopEvent.killWorker 0,
        LoopEvent.waitBlocking 0, LoopEvent.workerReaped 0, LoopEvent.reclaimDir 0]) ∧
    ((fun _ => false : Nat → Bool) 0 = false ∧ 5000 < (fun _ => 6000 : Nat → Nat) 0) := by
  refine ⟨by decide, ?_, by decide, ?_, ?_, ?_⟩
  · exact (c6_supervisor (fun _ => false) (fun _ => 6000)
      (fun _ => (fun _ => false, fun _ => 6000)) 3 0 0 0 [] []).1 (by decide)
  · exact (c6_supervisor (fun _ => true) (fun _ => 0)
      (fun _ => (fun _ => false, fun _ => 6000)) 3 1 0 0 [] []).2.1 (by decide)
  · exact (c6_supervisor (fun _ => false) (fun _ => 6000)
      (fun _ => (fun _ => false, fun _ => 6000)) 3 0 0 0 []
        [LoopEvent.mkdirIter 0, LoopEvent.forkWorker 0,
          LoopEvent.killProcessGroup 0, LoopEvent.killWorker 0,
          LoopEvent.waitBlocking 0, LoopEvent.workerReaped 0,
          LoopEvent.reclaimDir 0]).2.2.1 (by decide) (by decide)
  · exact (c6_supervisor (fun _ => false) (fun _ => 6000)
      (fun _ => (fun _ => false, fun _ => 6000)) 3 0 0 0 [] []).2.2.2 (by decide)
